import Mathlib

/-!
Verification of the Block Blast mini-app client (`src/frontend/src/App.js`).

The file shallowly embeds the session-bootstrap sequence, the game-session
state machine, the tab router, the fetch-with-fallback panels, the poll
effect lifecycle and the rank overlay, and proves the spec's claims about
them.  Network calls are modelled by an oracle (`Net`) mapping each request
to `some` response (success) or `none` (a caught transport failure);
JavaScript `undefined`/missing fields are modelled with `Option`.
-/

namespace BlockBlast

/-- JavaScript `a || b` on a possibly-missing string: `undefined`, `null`
and the empty string are falsy. -/
def jsOrS (a : Option String) (b : String) : String :=
  match a with
  | some s => if s = "" then b else s
  | none => b

/-- JavaScript `a || b` on a possibly-missing number: `undefined` and `0`
are falsy. -/
def jsOrN (a : Option Nat) (b : Nat) : Nat :=
  match a with
  | some n => if n = 0 then b else n
  | none => b

/-- JavaScript truthiness of a possibly-missing string (`user.id` checks):
missing and empty strings are falsy. -/
def jsTruthyStr : Option String → Bool
  | some s => s != ""
  | none => false

/-- String interpolation of a possibly-missing number, as in
`` `ID: ${user.telegram_id}` ``: a missing value prints as "undefined". -/
def natStr : Option Nat → String
  | some n => toString n
  | none => "undefined"

/-- Telegram host identity (`tg.initDataUnsafe.user`). -/
structure TelegramUser where
  id : Nat
  username : Option String
  first_name : String
  last_name : Option String
  photo_url : Option String
deriving DecidableEq, Repr

/-- Request body of `POST /users` (the `userData` / `demoUser` objects). -/
structure UserData where
  telegram_id : Option Nat
  username : Option String
  first_name : Option String
  last_name : Option String
  photo_url : Option String
deriving DecidableEq, Repr

/-- A user record as held in React state (`user`): the backend response of
`POST /users`, or the hard-coded local fallback.  Fields a response might
omit are `Option`s. -/
structure User where
  id : Option String
  telegram_id : Option Nat
  username : Option String
  first_name : Option String
  photo_url : Option String
  best_score : Option Nat
  games_played : Option Nat
  total_score : Option Nat
deriving DecidableEq, Repr

/-- The `userStats` React state object. -/
structure UserStats where
  username : String
  avatar : Option String
  bestScore : Option Nat
  gamesPlayed : Option Nat
  totalScore : Option Nat
  rank : Option Nat
deriving DecidableEq, Repr

/-- Initial `userStats` value (`useState({...})` in `App` and `ProfileTab`). -/
def initialStats : UserStats :=
  { username := "Player", avatar := none, bestScore := some 0,
    gamesPlayed := some 0, totalScore := some 0, rank := some 0 }

/-- Network oracle: result of `POST /users` for a given body, and of
`GET /stats/user/{id}` for a given id string; `none` models a caught
transport failure. -/
structure Net where
  postUsers : UserData → Option User
  getStats : String → Option Nat

/-- One observed network request (for counting attempts). -/
inductive NetCall where
  | postUsers (body : UserData)
  | getStats (id : String)
deriving DecidableEq, Repr

/-- The id as spliced into `` `${API}/stats/user/${user.id}` `` — a missing
id becomes the literal string "undefined". -/
def idStr (o : Option String) : String :=
  match o with
  | some s => s
  | none => "undefined"

/-- The merge `setUserStats({username: r.username || r.first_name ||
`ID: ${r.telegram_id}`, avatar: r.photo_url, bestScore: r.best_score, ...,
rank: statsResponse.data.rank})` used verbatim in `initializeApp`,
`createDemoUser` and `ProfileTab.fetchUserStats`. -/
def mergedStats (u : User) (rank : Nat) : UserStats :=
  { username := jsOrS u.username (jsOrS u.first_name ("ID: " ++ natStr u.telegram_id)),
    avatar := u.photo_url,
    bestScore := u.best_score,
    gamesPlayed := u.games_played,
    totalScore := u.total_score,
    rank := some rank }

/-- The hard-coded user installed when even the demo `POST /users` fails
(`setUser({id: 'demo-user', ...})`). -/
def fallbackUser : User :=
  { id := some "demo-user", telegram_id := none, username := some "DemoPlayer",
    first_name := none, photo_url := none,
    best_score := some 0, games_played := some 0, total_score := some 0 }

/-- The zero-valued stats installed when even the demo `POST /users` fails. -/
def fallbackStats : UserStats :=
  { username := "DemoPlayer", avatar := none, bestScore := some 0,
    gamesPlayed := some 0, totalScore := some 0, rank := some 0 }

/-- The `demoUser` request body; `randId` models
`Math.floor(Math.random() * 1000000000)`. -/
def demoUserData (randId : Nat) : UserData :=
  { telegram_id := some randId, username := some "DemoPlayer",
    first_name := some "Demo", last_name := some "Player", photo_url := none }

/-- The `userData` body built from the host identity in `initializeApp`:
`username: telegramUser.username || `${first_name}_${id}``. -/
def realUserData (tu : TelegramUser) : UserData :=
  { telegram_id := some tu.id,
    username := some (jsOrS tu.username (tu.first_name ++ "_" ++ toString tu.id)),
    first_name := some tu.first_name,
    last_name := tu.last_name,
    photo_url := tu.photo_url }

/-- Outcome of the bootstrap: the final `user` and `userStats` state and
the trace of issued network requests. -/
structure BootResult where
  user : Option User
  userStats : UserStats
  calls : List NetCall
deriving DecidableEq, Repr

/-- `createDemoUser`: post the demo identity; on success fetch its rank and
merge; if either call fails, the catch installs the hard-coded local
`fallbackUser`/`fallbackStats` pair (overwriting any `setUser` already
performed in the try block). -/
def createDemoUser (net : Net) (randId : Nat) : BootResult :=
  let body := demoUserData randId
  match net.postUsers body with
  | some u =>
      match net.getStats (idStr u.id) with
      | some r =>
          { user := some u, userStats := mergedStats u r,
            calls := [NetCall.postUsers body, NetCall.getStats (idStr u.id)] }
      | none =>
          { user := some fallbackUser, userStats := fallbackStats,
            calls := [NetCall.postUsers body, NetCall.getStats (idStr u.id)] }
  | none =>
      { user := some fallbackUser, userStats := fallbackStats,
        calls := [NetCall.postUsers body] }

/-- `initializeApp`: with a host identity, post `realUserData` and fetch the
rank; a failure of either call is caught by the same handler and falls back
to `createDemoUser` (attempted once); with no host identity, go straight to
`createDemoUser`. -/
def initApp (host : Option TelegramUser) (net : Net) (randId : Nat) : BootResult :=
  match host with
  | some tu =>
      let body := realUserData tu
      match net.postUsers body with
      | some u =>
          match net.getStats (idStr u.id) with
          | some r =>
              { user := some u, userStats := mergedStats u r,
                calls := [NetCall.postUsers body, NetCall.getStats (idStr u.id)] }
          | none =>
              let d := createDemoUser net randId
              { user := d.user, userStats := d.userStats,
                calls := NetCall.postUsers body :: NetCall.getStats (idStr u.id) :: d.calls }
      | none =>
          let d := createDemoUser net randId
          { user := d.user, userStats := d.userStats,
            calls := NetCall.postUsers body :: d.calls }
  | none => createDemoUser net randId

/-- The `POST /users` bodies appearing in a call trace. -/
def postCalls (calls : List NetCall) : List UserData :=
  calls.filterMap fun c =>
    match c with
    | NetCall.postUsers b => some b
    | NetCall.getStats _ => none

/-- A network oracle on which every request fails. -/
def failNet : Net :=
  { postUsers := fun _ => none, getStats := fun _ => none }

lemma createDemoUser_user_some (net : Net) (randId : Nat) :
    ∃ u, (createDemoUser net randId).user = some u := by
  cases h : net.postUsers (demoUserData randId) with
  | none => exact ⟨fallbackUser, by simp [createDemoUser, h]⟩
  | some u =>
      cases h2 : net.getStats (idStr u.id) with
      | none => exact ⟨fallbackUser, by simp [createDemoUser, h, h2]⟩
      | some r => exact ⟨u, by simp [createDemoUser, h, h2]⟩

lemma createDemoUser_allFail (net : Net) (randId : Nat)
    (h : ∀ b, net.postUsers b = none) :
    createDemoUser net randId =
      BootResult.mk (some fallbackUser) fallbackStats
        [NetCall.postUsers (demoUserData randId)] := by
  simp [createDemoUser, h (demoUserData randId)]

lemma initApp_user_some (host : Option TelegramUser) (net : Net) (randId : Nat) :
    ∃ u, (initApp host net randId).user = some u := by
  cases host with
  | none => exact createDemoUser_user_some net randId
  | some tu =>
      cases h : net.postUsers (realUserData tu) with
      | none =>
          obtain ⟨u, hu⟩ := createDemoUser_user_some net randId
          exact ⟨u, by simp [initApp, h, hu]⟩
      | some u =>
          cases h2 : net.getStats (idStr u.id) with
          | none =>
              obtain ⟨v, hv⟩ := createDemoUser_user_some net randId
              exact ⟨v, by simp [initApp, h, h2, hv]⟩
          | some r => exact ⟨u, by simp [initApp, h, h2]⟩

/-- The `BlockBlastGame` component's local session state
(`score`, `gameOver`, `isPlaying`, `gameStartTime`). -/
structure GameSession where
  score : Nat
  gameOver : Bool
  isPlaying : Bool
  gameStartTime : Option Nat
deriving DecidableEq, Repr

/-- Initial `useState` values of the session. -/
def initialSession : GameSession :=
  { score := 0, gameOver := false, isPlaying := false, gameStartTime := none }

/-- `startGame`: `setIsPlaying(true); setGameOver(false); setScore(0);
setGameStartTime(Date.now())`.  The result does not depend on the previous
session state. -/
def startGame (_s : GameSession) (now : Nat) : GameSession :=
  { score := 0, gameOver := false, isPlaying := true, gameStartTime := some now }

/-- The state part of `simulateGameOver`: `setGameOver(true);
setIsPlaying(false); setScore(finalScore)`. -/
def endSession (s : GameSession) (finalScore : Nat) : GameSession :=
  { s with gameOver := true, isPlaying := false, score := finalScore }

/-- Body of `POST /scores`. -/
structure SubmitReq where
  user_id : String
  score : Nat
  game_duration : Nat
deriving DecidableEq, Repr

/-- Outcome of `simulateGameOver`: the next session state, the score
submissions attempted, and the console log. -/
structure EndResult where
  session : GameSession
  submits : List SubmitReq
  log : List String
deriving DecidableEq, Repr

/-- `simulateGameOver`: move to the game-over state, compute the duration
from `gameStartTime` (0 when absent), and, only when `user && user.id` is
truthy, attempt one `POST /scores`; `submitOk` is the network outcome of
that attempt — failure is caught and logged only. -/
def simulateGameOver (user : Option User) (s : GameSession)
    (finalScore now : Nat) (submitOk : Bool) : EndResult :=
  let s' := endSession s finalScore
  let dur := match s.gameStartTime with
    | some t => (now - t) / 1000
    | none => 0
  match user with
  | some u =>
      if jsTruthyStr u.id then
        let req : SubmitReq := { user_id := idStr u.id, score := finalScore,
                                 game_duration := dur }
        if submitOk then
          { session := s', submits := [req], log := ["Score submitted successfully"] }
        else
          { session := s', submits := [req], log := ["Failed to submit score:"] }
      else { session := s', submits := [], log := [] }
  | none => { session := s', submits := [], log := [] }

/-- The start button is rendered exactly when `!isPlaying && !gameOver`
(the idle screen). -/
def startButtonShown (s : GameSession) : Bool :=
  !s.isPlaying && !s.gameOver

/-- The restart button is rendered exactly when `gameOver` (the game-over
screen). -/
def restartButtonShown (s : GameSession) : Bool :=
  s.gameOver

/-- `startGame` is invocable exactly when one of its two buttons is on
screen. -/
def startInvocable (s : GameSession) : Bool :=
  startButtonShown s || restartButtonShown s

/-- Session states reachable through the component's UI: the initial state,
`startGame` when one of its buttons is shown, and the game-over transition
while playing. -/
inductive Reachable : GameSession → Prop where
  | init : Reachable initialSession
  | startStep {s : GameSession} (now : Nat) :
      Reachable s → startInvocable s = true → Reachable (startGame s now)
  | endStep {s : GameSession} (finalScore : Nat) :
      Reachable s → s.isPlaying = true → Reachable (endSession s finalScore)

lemma reachable_playing_not_over {s : GameSession} (hr : Reachable s) :
    s.isPlaying = true → s.gameOver = false := by
  induction hr with
  | init => intro h; simp [initialSession] at h
  | startStep now _ _ _ => intro _; rfl
  | endStep finalScore _ _ _ => intro h; simp [endSession] at h

/-- The tab bar entries, in order, with the panel component each id maps
to (modelled as an enumeration of the five components). -/
inductive TabComponent where
  | duelsTab
  | leadersTab
  | blockBlastGame
  | shopTab
  | profileTab
deriving DecidableEq, Repr

/-- The `tabs` array of `App`: id paired with component. -/
def tabs : List (String × TabComponent) :=
  [("duels", TabComponent.duelsTab),
   ("leaders", TabComponent.leadersTab),
   ("game", TabComponent.blockBlastGame),
   ("shop", TabComponent.shopTab),
   ("profile", TabComponent.profileTab)]

/-- `useState('game')`: the default selected tab. -/
def defaultActiveTab : String := "game"

/-- `tabs.find(tab => tab.id === activeTab)?.component || BlockBlastGame`. -/
def activeComponent (activeTab : String) : TabComponent :=
  match tabs.find? (fun t => t.1 == activeTab) with
  | some t => t.2
  | none => TabComponent.blockBlastGame

/-- `setActiveTab(tab.id)`: the new selection replaces the old one. -/
def setActiveTab (_current id : String) : String := id

/-- A leaderboard entry as rendered by `LeadersTab`. -/
structure LeaderboardEntry where
  user_id : String
  username : String
  best_score : Nat
  rank : Nat
  photo_url : Option String
deriving DecidableEq, Repr

/-- The hard-coded fallback list installed by `LeadersTab` when
`GET /leaderboard` fails. -/
def mockLeaders : List LeaderboardEntry :=
  [{ user_id := "1", username := "ProGamer", best_score := 15420, rank := 1,
     photo_url := some "https://via.placeholder.com/40/FFD700/FFFFFF?text=P" },
   { user_id := "2", username := "BlockMaster", best_score := 12890, rank := 2,
     photo_url := some "https://via.placeholder.com/40/C0C0C0/FFFFFF?text=B" },
   { user_id := "3", username := "PuzzleKing", best_score := 11230, rank := 3,
     photo_url := some "https://via.placeholder.com/40/CD7F32/FFFFFF?text=P" },
   { user_id := "4", username := "GameHero", best_score := 9870, rank := 4,
     photo_url := some "https://via.placeholder.com/40/AAAAAA/FFFFFF?text=G" },
   { user_id := "5", username := "BlastExpert", best_score := 8450, rank := 5,
     photo_url := some "https://via.placeholder.com/40/DDDDDD/FFFFFF?text=D" }]

/-- `LeadersTab.fetchLeaders`: the `leaders` state after the fetch settles —
the response on success, `mockLeaders` when the fetch fails (the catch
branch). -/
def fetchLeaders (response : Option (List LeaderboardEntry)) : List LeaderboardEntry :=
  match response with
  | some l => l
  | none => mockLeaders

/-- The list actually rendered: `leaders.slice(0, 50)`. -/
def renderedLeaders (response : Option (List LeaderboardEntry)) : List LeaderboardEntry :=
  (fetchLeaders response).take 50

/-- The stats `ProfileTab` installs when `GET /stats/user/{id}` fails: the
user record's own fields with `|| 0` defaults and `rank: 0`. -/
def profileFallbackStats (u : User) : UserStats :=
  { username := jsOrS u.username (jsOrS u.first_name ("ID: " ++ natStr u.telegram_id)),
    avatar := u.photo_url,
    bestScore := some (jsOrN u.best_score 0),
    gamesPlayed := some (jsOrN u.games_played 0),
    totalScore := some (jsOrN u.total_score 0),
    rank := some 0 }

/-- `ProfileTab.fetchUserStats`: fetch only when `user && user.id` is
truthy; merge on success, fall back to `profileFallbackStats` on failure,
leave the initial state otherwise. -/
def fetchUserStats (user : Option User) (net : Net) (st : UserStats) : UserStats :=
  match user with
  | some u =>
      if jsTruthyStr u.id then
        match net.getStats (idStr u.id) with
        | some r => mergedStats u r
        | none => profileFallbackStats u
      else st
  | none => st

/-- `PlayerRankOverlay`: `null` when `!user || !userStats ||
userStats.rank === 0 || activeTab === 'profile'`; otherwise it renders the
username and the rank. -/
def playerRankOverlay (user : Option User) (stats : Option UserStats)
    (activeTab : String) : Option (String × Option Nat) :=
  let showOverlay := activeTab != "profile"
  match user, stats with
  | some _, some st =>
      if st.rank = some 0 || !showOverlay then none
      else some (st.username, st.rank)
  | _, _ => none

/-- The dependency array `[isPlaying, gameStartTime]` of the poll effect. -/
structure PollDeps where
  isPlaying : Bool
  gameStartTime : Option Nat
deriving DecidableEq, Repr

/-- A live interval timer: its handle and the dependency values at the
effect run that installed it. -/
structure Timer where
  id : Nat
  deps : PollDeps
deriving DecidableEq, Repr

/-- Lifecycle events of the game panel relevant to the poll effect: a
render with the current dependency values, or unmounting the panel. -/
inductive PanelEvent where
  | render (d : PollDeps)
  | unmount
deriving DecidableEq, Repr

/-- Effect bookkeeping: the set of live timers, the dependency values of
the last effect run (`none` when unmounted), the handle registered for
cleanup, and a fresh-handle counter. -/
structure EffectState where
  live : List Timer
  currentDeps : Option PollDeps
  lastTimer : Option Nat
  fresh : Nat
deriving DecidableEq, Repr

def initEffect : EffectState :=
  { live := [], currentDeps := none, lastTimer := none, fresh := 0 }

/-- The effect body: `const interval = setInterval(..., 500)` installs a
timer and registers its handle for the cleanup. -/
def runEffect (st : EffectState) (d : PollDeps) : EffectState :=
  { live := st.live ++ [{ id := st.fresh, deps := d }],
    currentDeps := some d, lastTimer := some st.fresh, fresh := st.fresh + 1 }

/-- The cleanup `() => clearInterval(interval)`: removes the timer whose
handle was registered by the last effect run. -/
def runCleanup (st : EffectState) : EffectState :=
  { st with live := st.live.filter (fun t => some t.id != st.lastTimer),
            lastTimer := none }

/-- React semantics of `useEffect(..., [isPlaying, gameStartTime])`: the
effect runs after the mounting render; after a render whose dependency
values changed, the previous cleanup runs and the effect runs again; on
unmount only the cleanup runs. -/
def stepEffect (st : EffectState) : PanelEvent → EffectState
  | PanelEvent.render d =>
      match st.currentDeps with
      | none => runEffect st d
      | some d0 => if d = d0 then st else runEffect (runCleanup st) d
  | PanelEvent.unmount =>
      { runCleanup st with currentDeps := none }

/-- The effect state after a sequence of panel events, starting unmounted. -/
def runEvents (es : List PanelEvent) : EffectState :=
  es.foldl stepEffect initEffect

/-- Invariant tying live timers to the last effect run: while mounted
exactly the timer of the last run is live and carries the current
dependency values; while unmounted no timer is live. -/
def EffectInv (st : EffectState) : Prop :=
  match st.currentDeps, st.lastTimer with
  | none, none => st.live = []
  | some d, some i => st.live = [{ id := i, deps := d }]
  | _, _ => False

lemma effectInv_init : EffectInv initEffect := by
  simp [EffectInv, initEffect]

lemma effectInv_step {st : EffectState} (h : EffectInv st) (e : PanelEvent) :
    EffectInv (stepEffect st e) := by
  cases e with
  | render d =>
      unfold EffectInv at h
      cases hc : st.currentDeps with
      | none =>
          cases hl : st.lastTimer with
          | none =>
              rw [hc, hl] at h
              simp [stepEffect, hc, runEffect, EffectInv, h]
          | some i => rw [hc, hl] at h; exact absurd h not_false
      | some d0 =>
          cases hl : st.lastTimer with
          | none => rw [hc, hl] at h; exact absurd h not_false
          | some i =>
              rw [hc, hl] at h
              by_cases hd : d = d0
              · simp [stepEffect, hc, hd, EffectInv, hl, h]
              · simp [stepEffect, hc, hd, runCleanup, runEffect, EffectInv, hl, h]
  | unmount =>
      unfold EffectInv at h
      cases hc : st.currentDeps with
      | none =>
          cases hl : st.lastTimer with
          | none =>
              rw [hc, hl] at h
              simp [stepEffect, runCleanup, EffectInv, hl, h]
          | some i => rw [hc, hl] at h; exact absurd h not_false
      | some d0 =>
          cases hl : st.lastTimer with
          | none => rw [hc, hl] at h; exact absurd h not_false
          | some i =>
              rw [hc, hl] at h
              simp [stepEffect, runCleanup, EffectInv, hl, h]

lemma effectInv_runEvents (es : List PanelEvent) : EffectInv (runEvents es) := by
  have main : ∀ (es : List PanelEvent) (st : EffectState), EffectInv st →
      EffectInv (es.foldl stepEffect st) := by
    intro es
    induction es with
    | nil => intro st h; exact h
    | cons e rest ih =>
        intro st h
        exact ih (stepEffect st e) (effectInv_step h e)
  exact main es initEffect effectInv_init

/-- A concrete host identity used to instantiate theorems. -/
def tu0 : TelegramUser :=
  { id := 1, username := none, first_name := "A", last_name := none, photo_url := none }

/-- A concrete session in the Playing state. -/
def playingSession : GameSession :=
  { score := 0, gameOver := false, isPlaying := true, gameStartTime := some 1000 }

/-- Claim C1: for every host-identity input (present, present but
`createOrFetchUser` fails, or absent) the bootstrap terminates with a
non-null `user` and a `userStats` value; when every network call fails the
fully local zero-valued `fallbackUser`/`fallbackStats` pair is installed,
so no input leaves `user == null` after bootstrap. -/
theorem c1_bootstrap_nonnull (host : Option TelegramUser) (net : Net) (randId : Nat) :
    (∃ u, (initApp host net randId).user = some u) ∧
    ((∀ b, net.postUsers b = none) →
      (initApp host net randId).user = some fallbackUser ∧
      (initApp host net randId).userStats = fallbackStats) := by
  refine ⟨initApp_user_some host net randId, ?_⟩
  intro hall
  have hd := createDemoUser_allFail net randId hall
  cases host with
  | none => simp [initApp, hd]
  | some tu => simp [initApp, hall (realUserData tu), hd]

/-- Witness for C1 at the all-failing network with no host identity. -/
theorem c1_bootstrap_nonnull_witness :
    (initApp none failNet 0).user = some fallbackUser ∧
    (initApp none failNet 0).userStats = fallbackStats :=
  (c1_bootstrap_nonnull none failNet 0).2 (fun _ => rfl)

/-- Claim C2: if `POST /users` fails for the real identity, the
demo-identity path is attempted exactly once (the trace of user-creation
requests is exactly the real body followed by one demo body), and if the
demo attempt also fails the resulting stats have `rank = 0` and all
numeric stats equal to 0. -/
theorem c2_demo_retry_once (tu : TelegramUser) (net : Net) (randId : Nat)
    (hreal : net.postUsers (realUserData tu) = none) :
    postCalls (initApp (some tu) net randId).calls =
      [realUserData tu, demoUserData randId] ∧
    (net.postUsers (demoUserData randId) = none →
      (initApp (some tu) net randId).userStats.rank = some 0 ∧
      (initApp (some tu) net randId).userStats.bestScore = some 0 ∧
      (initApp (some tu) net randId).userStats.gamesPlayed = some 0 ∧
      (initApp (some tu) net randId).userStats.totalScore = some 0) := by
  constructor
  · cases hdemo : net.postUsers (demoUserData randId) with
    | none => simp [initApp, hreal, createDemoUser, hdemo, postCalls]
    | some u =>
        cases hs : net.getStats (idStr u.id) with
        | none => simp [initApp, hreal, createDemoUser, hdemo, hs, postCalls]
        | some r => simp [initApp, hreal, createDemoUser, hdemo, hs, postCalls]
  · intro hdemo
    simp [initApp, hreal, createDemoUser, hdemo, fallbackStats]

/-- Witness for C2 at the all-failing network. -/
theorem c2_demo_retry_once_witness :
    postCalls (initApp (some tu0) failNet 7).calls =
      [realUserData tu0, demoUserData 7] ∧
    (initApp (some tu0) failNet 7).userStats.rank = some 0 :=
  ⟨(c2_demo_retry_once tu0 failNet 7 rfl).1,
   ((c2_demo_retry_once tu0 failNet 7 rfl).2 rfl).1⟩

/-- Counterexample to C3 as stated: from a Playing session with no user
present, the end transition still moves to Over but attempts zero score
submissions, not exactly one. -/
theorem c3_counterexample :
    (simulateGameOver none playingSession 5000 9000 true).session.gameOver = true ∧
    (simulateGameOver none playingSession 5000 9000 true).session.isPlaying = false ∧
    (simulateGameOver none playingSession 5000 9000 true).submits.length ≠ 1 := by
  decide

/-- Claim C3 (amended): for every Playing session, when a user with a
truthy id is present, the end transition moves the state to Over
(`gameOver = true`, `isPlaying = false`), records the final score, and
attempts exactly one score submission; the state and the submissions are
identical whether the network call succeeds or fails, so a failure never
prevents or reverts the transition. -/
theorem c3_end_transition (u : User) (s : GameSession) (finalScore now : Nat)
    (submitOk : Bool) (hid : jsTruthyStr u.id = true) :
    (simulateGameOver (some u) s finalScore now submitOk).session.gameOver = true ∧
    (simulateGameOver (some u) s finalScore now submitOk).session.isPlaying = false ∧
    (simulateGameOver (some u) s finalScore now submitOk).session.score = finalScore ∧
    (simulateGameOver (some u) s finalScore now submitOk).submits.length = 1 ∧
    (simulateGameOver (some u) s finalScore now submitOk).session =
      (simulateGameOver (some u) s finalScore now (!submitOk)).session ∧
    (simulateGameOver (some u) s finalScore now submitOk).submits =
      (simulateGameOver (some u) s finalScore now (!submitOk)).submits := by
  cases submitOk <;> simp [simulateGameOver, hid, endSession]

/-- Witness for C3 (amended) at a failing submission. -/
theorem c3_end_transition_witness :
    (simulateGameOver (some fallbackUser) playingSession 5000 9000 false).session.gameOver
      = true ∧
    (simulateGameOver (some fallbackUser) playingSession 5000 9000 false).session.isPlaying
      = false ∧
    (simulateGameOver (some fallbackUser) playingSession 5000 9000 false).session.score
      = 5000 ∧
    (simulateGameOver (some fallbackUser) playingSession 5000 9000 false).submits.length
      = 1 ∧
    (simulateGameOver (some fallbackUser) playingSession 5000 9000 false).session =
      (simulateGameOver (some fallbackUser) playingSession 5000 9000 true).session ∧
    (simulateGameOver (some fallbackUser) playingSession 5000 9000 false).submits =
      (simulateGameOver (some fallbackUser) playingSession 5000 9000 true).submits :=
  c3_end_transition fallbackUser playingSession 5000 9000 false (by decide)

/-- Claim C4: `startGame` always establishes `score = 0`,
`isPlaying = true`, `gameOver = false` and records the start timestamp;
on session states reachable through the UI, `startGame` is not invocable
while Playing (its buttons are only rendered from Idle or Over); and the
restart transition is identical to the initial start transition (the
result does not depend on the previous state). -/
theorem c4_start_postcondition :
    (∀ (s : GameSession) (now : Nat),
        startGame s now = GameSession.mk 0 false true (some now)) ∧
    (∀ (s : GameSession), Reachable s → s.isPlaying = true →
        startInvocable s = false) ∧
    (∀ (s t : GameSession) (now : Nat), startGame s now = startGame t now) := by
  refine ⟨fun s now => rfl, ?_, fun s t now => rfl⟩
  intro s hr hp
  have hover := reachable_playing_not_over hr hp
  simp [startInvocable, startButtonShown, restartButtonShown, hp, hover]

/-- Witness for C4 at the reachable Playing state obtained by starting
from the initial state. -/
theorem c4_start_postcondition_witness :
    startGame initialSession 5 = GameSession.mk 0 false true (some 5) ∧
    startInvocable (startGame initialSession 5) = false ∧
    startGame playingSession 9 = startGame initialSession 9 :=
  ⟨c4_start_postcondition.1 initialSession 5,
   c4_start_postcondition.2.1 (startGame initialSession 5)
     (Reachable.startStep 5 Reachable.init (by decide)) (by decide),
   c4_start_postcondition.2.2 playingSession initialSession 9⟩

/-- A concrete user record carrying non-zero stats and a truthy id. -/
def u100 : User :=
  { id := some "x", telegram_id := some 5, username := some "Bob",
    first_name := none, photo_url := none,
    best_score := some 100, games_played := some 2, total_score := some 300 }

/-- Counterexample to C5 as stated: when the rank fetch fails for a user
whose record already carries `best_score = 100`, `ProfileTab` renders
`bestScore = 100`, not the zero-valued stats the claim demands. -/
theorem c5_counterexample :
    (fetchUserStats (some u100) failNet initialStats).bestScore = some 100 ∧
    (fetchUserStats (some u100) failNet initialStats).bestScore ≠ some 0 := by
  decide

/-- Claim C5 (amended): on a fetch failure `LeadersTab` renders exactly the
fixed 5-entry local placeholder list with ranks 1..5 in ascending order,
and `ProfileTab` falls back to the stats already present on the user
record, defaulting missing or zero numeric fields to 0 and setting
`rank = 0` (zero-valued exactly when the user record carries no stats);
in both panels the failing fetch is caught locally — the fallback is a
total function of the failure, no error value is propagated. -/
theorem c5_fetch_fallback :
    (renderedLeaders none = mockLeaders ∧
     (renderedLeaders none).length = 5 ∧
     (renderedLeaders none).map LeaderboardEntry.rank = [1, 2, 3, 4, 5] ∧
     List.Pairwise (fun a b => a.rank < b.rank) (renderedLeaders none)) ∧
    (∀ (u : User) (net : Net) (st : UserStats),
        jsTruthyStr u.id = true → net.getStats (idStr u.id) = none →
        fetchUserStats (some u) net st = profileFallbackStats u ∧
        (profileFallbackStats u).rank = some 0) := by
  refine ⟨⟨rfl, rfl, by decide, by decide⟩, ?_⟩
  intro u net st hid hfail
  exact ⟨by simp [fetchUserStats, hid, hfail], rfl⟩

/-- Witness for C5 (amended) at a failing network. -/
theorem c5_fetch_fallback_witness :
    fetchUserStats (some u100) failNet initialStats = profileFallbackStats u100 ∧
    (profileFallbackStats u100).rank = some 0 :=
  c5_fetch_fallback.2 u100 failNet initialStats (by decide) rfl

/-- Claim C6: the tab router holds a single selected identifier from the
fixed set `{duels, leaders, game, shop, profile}` with default `game`;
each id in the set renders exactly its own panel (the five panels are
pairwise distinct, so exactly one is rendered), and re-selecting the
active tab leaves the selection — and hence the rendered panel —
unchanged. -/
theorem c6_tab_router :
    defaultActiveTab = "game" ∧
    tabs.map Prod.fst = ["duels", "leaders", "game", "shop", "profile"] ∧
    activeComponent "duels" = TabComponent.duelsTab ∧
    activeComponent "leaders" = TabComponent.leadersTab ∧
    activeComponent "game" = TabComponent.blockBlastGame ∧
    activeComponent "shop" = TabComponent.shopTab ∧
    activeComponent "profile" = TabComponent.profileTab ∧
    (tabs.map Prod.snd).Nodup ∧
    (∀ t : String, setActiveTab t t = t ∧
        activeComponent (setActiveTab t t) = activeComponent t) := by
  refine ⟨rfl, rfl, by decide, by decide, by decide, by decide, by decide,
    by decide, fun t => ⟨rfl, rfl⟩⟩

/-- The host identity of the C7 scenario (`{id: 42, username: "alice"}`). -/
def aliceTG : TelegramUser :=
  { id := 42, username := some "alice", first_name := "", last_name := none,
    photo_url := none }

/-- The C7 scenario's `createOrFetchUser` response, with exactly the fields
the claim lists: `{id: "u1", bestScore: 100, gamesPlayed: 3,
totalScore: 250}`. -/
def c7resp : User :=
  { id := some "u1", telegram_id := none, username := none, first_name := none,
    photo_url := none, best_score := some 100, games_played := some 3,
    total_score := some 250 }

/-- Network oracle of the C7 scenario as literally stated. -/
def c7net : Net :=
  { postUsers := fun _ => some c7resp, getStats := fun _ => some 7 }

/-- Counterexample to C7 as stated: with the response carrying exactly the
listed fields, the merged username is "ID: undefined" (the code derives it
from the response's `username`/`first_name`/`telegram_id`, all absent),
not "alice". -/
theorem c7_counterexample :
    (initApp (some aliceTG) c7net 0).userStats.username = "ID: undefined" ∧
    (initApp (some aliceTG) c7net 0).userStats.username ≠ "alice" := by
  decide

/-- The C7 response extended with the username the server would echo back. -/
def c7respAlice : User := { c7resp with username := some "alice" }

/-- Network oracle of the amended C7 scenario. -/
def c7netAlice : Net :=
  { postUsers := fun _ => some c7respAlice, getStats := fun _ => some 7 }

/-- Claim C7 (amended): in the scenario with host identity
`{id: 42, username: "alice"}`, a `createOrFetchUser` response
`{id: "u1", username: "alice", bestScore: 100, gamesPlayed: 3,
totalScore: 250}` and a rank fetch returning 7, the merged `UserStats`
equals `{username: "alice", bestScore: 100, gamesPlayed: 3,
totalScore: 250, rank: 7}` — the username comes from the response, not
from the host identity. -/
theorem c7_scenario :
    (initApp (some aliceTG) c7netAlice 0).userStats =
      UserStats.mk "alice" none (some 100) (some 3) (some 250) (some 7) := by
  decide

/-- Claim C8: in every event trace of the game panel, any live poll timer
carries the dependency values of the current render (so the timer
installed while Playing is torn down as soon as the game leaves Playing),
at most one timer is ever live, and after the panel unmounts no timer
remains — no leaked timers. -/
theorem c8_poll_teardown (es : List PanelEvent) :
    ((runEvents es).currentDeps = none → (runEvents es).live = []) ∧
    (runEvents es).live.length ≤ 1 ∧
    (∀ t ∈ (runEvents es).live, some t.deps = (runEvents es).currentDeps) := by
  have h := effectInv_runEvents es
  unfold EffectInv at h
  cases hc : (runEvents es).currentDeps with
  | none =>
      cases hl : (runEvents es).lastTimer with
      | none =>
          rw [hc, hl] at h
          exact ⟨fun _ => h, by simp [h], by simp [h]⟩
      | some i => rw [hc, hl] at h; exact absurd h not_false
  | some d =>
      cases hl : (runEvents es).lastTimer with
      | none => rw [hc, hl] at h; exact absurd h not_false
      | some i =>
          rw [hc, hl] at h
          refine ⟨?_, by simp [h], ?_⟩
          · intro hcon
            cases hcon
          · intro t ht
            rw [h] at ht
            simp only [List.mem_singleton] at ht
            rw [ht]

/-- A concrete panel history: mount while Playing, leave Playing, unmount. -/
def c8events : List PanelEvent :=
  [PanelEvent.render (PollDeps.mk true (some 5)),
   PanelEvent.render (PollDeps.mk false (some 5)),
   PanelEvent.unmount]

/-- Witness for C8 on a concrete mount/leave-Playing/unmount history. -/
theorem c8_poll_teardown_witness :
    (runEvents c8events).live = [] ∧ (runEvents c8events).live.length ≤ 1 :=
  ⟨(c8_poll_teardown c8events).1 (by decide), (c8_poll_teardown c8events).2.1⟩

/-- Claim C9: when the user is absent or its id is not truthy, the end
transition issues zero network calls (no submission is attempted and
nothing is logged) while the transition to Over and the final-score
assignment still take place. -/
theorem c9_no_user_no_submit (user : Option User) (s : GameSession)
    (finalScore now : Nat) (submitOk : Bool)
    (h : user = none ∨ ∃ u, user = some u ∧ jsTruthyStr u.id = false) :
    (simulateGameOver user s finalScore now submitOk).submits = [] ∧
    (simulateGameOver user s finalScore now submitOk).log = [] ∧
    (simulateGameOver user s finalScore now submitOk).session.gameOver = true ∧
    (simulateGameOver user s finalScore now submitOk).session.isPlaying = false ∧
    (simulateGameOver user s finalScore now submitOk).session.score = finalScore := by
  rcases h with h | ⟨u, hu, hid⟩
  · subst h; simp [simulateGameOver, endSession]
  · subst hu; simp [simulateGameOver, hid, endSession]

/-- Witness for C9 with no user present. -/
theorem c9_no_user_no_submit_witness :
    (simulateGameOver none playingSession 5000 9000 true).submits = [] ∧
    (simulateGameOver none playingSession 5000 9000 true).log = [] ∧
    (simulateGameOver none playingSession 5000 9000 true).session.gameOver = true ∧
    (simulateGameOver none playingSession 5000 9000 true).session.isPlaying = false ∧
    (simulateGameOver none playingSession 5000 9000 true).session.score = 5000 :=
  c9_no_user_no_submit none playingSession 5000 9000 true (Or.inl rfl)

/-- Claim C10: the rank overlay renders nothing exactly when the user is
null, or the stats are null, or the stats' rank is the 0 sentinel, or the
active tab is `profile`; in every other state it renders the username and
rank — and a rendered overlay never shows rank 0. -/
theorem c10_rank_overlay (user : Option User) (stats : Option UserStats)
    (tab : String) :
    (playerRankOverlay user stats tab = none ↔
      (user = none ∨ stats = none ∨
       (∃ st, stats = some st ∧ st.rank = some 0) ∨ tab = "profile")) ∧
    (∀ st : UserStats, user ≠ none → stats = some st → st.rank ≠ some 0 →
        tab ≠ "profile" →
        playerRankOverlay user stats tab = some (st.username, st.rank)) ∧
    (∀ p, playerRankOverlay user stats tab = some p → p.2 ≠ some 0) := by
  cases user with
  | none => simp [playerRankOverlay]
  | some u =>
      cases stats with
      | none => simp [playerRankOverlay]
      | some st =>
          by_cases hr : st.rank = some 0
          · simp [playerRankOverlay, hr]
          · by_cases ht : tab = "profile"
            · simp [playerRankOverlay, hr, ht]
            · simp only [playerRankOverlay, hr, ht]
              refine ⟨?_, ?_, ?_⟩
              · simp [hr, ht]
              · intro st' _ hst _ _
                injection hst with hst
                subst hst
                simp [hr, ht]
              · intro p hp
                simp [hr, ht] at hp
                subst hp
                exact hr

/-- A concrete stats value with a known rank. -/
def statsR7 : UserStats :=
  { username := "Bob", avatar := none, bestScore := some 1,
    gamesPlayed := some 1, totalScore := some 1, rank := some 7 }

/-- Witness for C10 on the game tab with a known rank. -/
theorem c10_rank_overlay_witness :
    playerRankOverlay (some fallbackUser) (some statsR7) "game" =
      some ("Bob", some 7) :=
  (c10_rank_overlay (some fallbackUser) (some statsR7) "game").2.1 statsR7
    (by decide) rfl (by decide) (by decide)

end BlockBlast
